import Mathlib

/-!
Verification development for the grade-lens submission-grading pipeline.

The Lean definitions below are a shallow embedding of the Python source:

* string helpers mirror the Python built-ins used by the code
  (str.split, str.strip, str.upper, str.lower, os.path.splitext,
  substring membership, str.isdigit);
* `parse_filename` embeds SubmissionGrouper.parse_filename
  (src/backend/src/processors/submission_grouper.py);
* the pydantic models of src/src/models/grading_result.py and
  src/backend/src/models/assignment_config.py are embedded as structures
  together with explicit construction-time validators that follow the
  pydantic v2 semantics: field validators run in field declaration order
  and info.data holds only previously validated fields;
* model (LLM) calls are abstracted as oracle arguments: a call outcome is
  either a thrown transport error or a returned response whose JSON parse
  result is an optional structured value.  Floats are modelled as rationals.
-/

namespace GradeLens

/-- Splitting a character list at every underscore, mirroring the Python
expression name.split("_"): the empty string yields one empty token and
consecutive underscores yield empty tokens. -/
def splitChars : List Char → List (List Char)
  | [] => [[]]
  | c :: rest =>
      let r := splitChars rest
      if c = '_' then [] :: r
      else
        match r with
        | [] => [[c]]
        | t :: ts => (c :: t) :: ts

/-- String form of `splitChars`, the embedding of str.split("_"). -/
def splitUnderscore (s : String) : List String :=
  (splitChars s.toList).map fun cs => ⟨cs⟩

/-- Embedding of Python str.isdigit for the ASCII identifiers the code
handles: nonempty and all characters are decimal digits. -/
def isDigitStr (s : String) : Bool :=
  s.toList ≠ [] && s.toList.all Char.isDigit

/-- Uppercasing, the embedding of str.upper on the ASCII tokens involved. -/
def toUpperStr (s : String) : String := ⟨s.toList.map Char.toUpper⟩

/-- Lowercasing, the embedding of str.lower. -/
def toLowerStr (s : String) : String := ⟨s.toList.map Char.toLower⟩

/-- Trimming surrounding whitespace, the embedding of str.strip(). -/
def strTrim (s : String) : String :=
  ⟨((s.toList.dropWhile Char.isWhitespace).reverse.dropWhile Char.isWhitespace).reverse⟩

/-- Substring membership, the embedding of the Python expression
needle in hay. -/
def strContains (hay needle : String) : Bool :=
  (hay.toList.tails).any fun t => needle.toList.isPrefixOf t

/-- Embedding of os.path.splitext restricted to bare filenames (the code
always passes a basename): split at the last dot provided some character
before it is not a dot, otherwise return the whole name with an empty
extension. -/
def splitext (s : String) : String × String :=
  let cs := s.toList
  let dots := (List.range cs.length).filter fun i => cs.getD i ' ' == '.'
  match dots.getLast? with
  | none => (s, "")
  | some d =>
      if (List.range d).any (fun i => cs.getD i ' ' != '.') then
        (⟨cs.take d⟩, ⟨cs.drop d⟩)
      else (s, "")

/-- Result record of SubmissionGrouper.parse_filename. -/
structure ParsedFilename where
  student_name : String
  is_late : Bool
  student_id : String
  submission_id : Option String
  remainder : String
  extension : String
  original_filename : String
deriving Repr, DecidableEq

/-- Accumulator of the token scan loop inside parse_filename. -/
structure ScanState where
  student_id : String
  submission_id : Option String
  remainder_parts : List String
  found_student_id : Bool
  found_submission_id : Bool
deriving Repr, DecidableEq

/-- One iteration of the token loop of parse_filename: a numeric token of
at least four digits fills student_id first, then submission_id; every
other token, and numeric tokens beyond the second, join the remainder. -/
def scanToken (st : ScanState) (part : String) : ScanState :=
  if isDigitStr part ∧ 4 ≤ part.length then
    if st.found_student_id = false then
      { st with student_id := part, found_student_id := true }
    else if st.found_submission_id = false then
      { st with submission_id := some part, found_submission_id := true }
    else
      { st with remainder_parts := st.remainder_parts ++ [part] }
  else
    { st with remainder_parts := st.remainder_parts ++ [part] }

/-- Embedding of SubmissionGrouper.parse_filename
(src/backend/src/processors/submission_grouper.py, lines 18 to 122).
The success path never throws; the Python except branch is unreachable in
this total embedding. -/
def parse_filename (filename : String) : ParsedFilename :=
  let se := splitext filename
  let parts := splitUnderscore se.1
  if parts.length < 2 then
    { student_name := parts.headD "unknown"
      is_late := false
      student_id := "unknown"
      submission_id := none
      remainder := ""
      extension := se.2
      original_filename := filename }
  else
    let student_name := parts.headD "unknown"
    let is_late := toUpperStr (parts.getD 1 "") == "LATE"
    let startIdx := if is_late then 2 else 1
    let st := (parts.drop startIdx).foldl scanToken
      { student_id := "unknown", submission_id := none, remainder_parts := []
        found_student_id := false, found_submission_id := false }
    let remainder :=
      if st.remainder_parts = [] then "" else String.intercalate "_" st.remainder_parts
    { student_name := student_name
      is_late := is_late
      student_id := st.student_id
      submission_id := st.submission_id
      remainder := remainder
      extension := se.2
      original_filename := filename }

lemma scanToken_after_both (st : ScanState) (part : String)
    (h1 : st.found_student_id = true) (h2 : st.found_submission_id = true) :
    scanToken st part = { st with remainder_parts := st.remainder_parts ++ [part] } := by
  unfold scanToken
  simp [h1, h2]

lemma foldl_scanToken_after_both (rest : List String) (st : ScanState)
    (h1 : st.found_student_id = true) (h2 : st.found_submission_id = true) :
    rest.foldl scanToken st = { st with remainder_parts := st.remainder_parts ++ rest } := by
  induction rest generalizing st with
  | nil => simp
  | cons t ts ih =>
      rw [List.foldl_cons, scanToken_after_both st t h1 h2,
        ih { st with remainder_parts := st.remainder_parts ++ [t] } h1 h2]
      simp

/-- Claim C5: for every filename of the form name_LATE_id1_id2_rest.ext with
id1 and id2 numeric tokens of at least four digits, parse_filename returns
student_name = name, is_late = true, student_id = id1, submission_id = id2
and remainder = the remaining tokens joined with underscores in original
order.  The shape of the filename is captured by the hypothesis on the
underscore split of the stem. -/
theorem c5_late_filename_resolution
    (filename name id1 id2 : String) (rest : List String)
    (hsplit : splitUnderscore (splitext filename).1 = name :: "LATE" :: id1 :: id2 :: rest)
    (h1d : isDigitStr id1 = true) (h1l : 4 ≤ id1.length)
    (h2d : isDigitStr id2 = true) (h2l : 4 ≤ id2.length) :
    (parse_filename filename).student_name = name ∧
    (parse_filename filename).is_late = true ∧
    (parse_filename filename).student_id = id1 ∧
    (parse_filename filename).submission_id = some id2 ∧
    (parse_filename filename).remainder = String.intercalate "_" rest := by
  have hlate : (toUpperStr (("LATE" : String)) == "LATE") = true := by decide
  have hstep1 :
      scanToken
        { student_id := "unknown", submission_id := none, remainder_parts := []
          found_student_id := false, found_submission_id := false } id1 =
      { student_id := id1, submission_id := none, remainder_parts := []
        found_student_id := true, found_submission_id := false } := by
    unfold scanToken
    simp [h1d, h1l]
  have hstep2 :
      scanToken
        { student_id := id1, submission_id := none, remainder_parts := []
          found_student_id := true, found_submission_id := false } id2 =
      { student_id := id1, submission_id := some id2, remainder_parts := []
        found_student_id := true, found_submission_id := true } := by
    unfold scanToken
    simp [h2d, h2l]
  have hfold :
      (id1 :: id2 :: rest).foldl scanToken
        { student_id := "unknown", submission_id := none, remainder_parts := []
          found_student_id := false, found_submission_id := false } =
      { student_id := id1, submission_id := some id2, remainder_parts := rest
        found_student_id := true, found_submission_id := true } := by
    rw [List.foldl_cons, hstep1, List.foldl_cons, hstep2,
      foldl_scanToken_after_both rest _ rfl rfl]
    simp
  unfold parse_filename
  simp only [hsplit, List.length_cons, List.headD_cons, List.getD_cons_succ,
    List.getD_cons_zero, hlate, List.drop_succ_cons, List.drop_zero]
  rw [if_neg (by omega)]
  simp only [eq_self_iff_true, if_true, List.drop_succ_cons, List.drop_zero, hfold]
  cases rest with
  | nil => simp; rfl
  | cons t ts => simp [String.intercalate]

/-- Witness for C5 at the concrete filename of end-to-end scenario C. -/
theorem c5_witness :
    (parse_filename "bob_LATE_654321_987654_hw3.pdf").student_name = "bob" ∧
    (parse_filename "bob_LATE_654321_987654_hw3.pdf").is_late = true ∧
    (parse_filename "bob_LATE_654321_987654_hw3.pdf").student_id = "654321" ∧
    (parse_filename "bob_LATE_654321_987654_hw3.pdf").submission_id = some "987654" ∧
    (parse_filename "bob_LATE_654321_987654_hw3.pdf").remainder = "hw3" := by
  have h := c5_late_filename_resolution "bob_LATE_654321_987654_hw3.pdf"
    "bob" "654321" "987654" ["hw3"]
    (by decide) (by decide) (by decide) (by decide) (by decide)
  exact ⟨h.1, h.2.1, h.2.2.1, h.2.2.2.1, h.2.2.2.2.trans (by decide)⟩

/-- Embedding of RubricConfig (src/backend/src/models/assignment_config.py). -/
structure RubricConfig where
  criteria : Option (List String) := none
  no_submission : ℚ := 0
  attempted : Option ℚ := none
  mostly_correct : Option ℚ := none
  correct : Option ℚ := none
  instructions : Option String := none
  custom_scoring : List (String × String) := []
deriving Repr, DecidableEq

/-- Embedding of QuestionConfig (src/backend/src/models/assignment_config.py).
The pydantic field constraint points gt 0 is carried as a hypothesis where a
theorem needs it. -/
structure QuestionConfig where
  id : String
  text : String
  points : ℚ
  answer_key : Option String := none
  rubric : Option RubricConfig := none
deriving Repr, DecidableEq

/-- Embedding of AssignmentConfig (src/backend/src/models/assignment_config.py).
After pydantic validation total_points is the sum of question points when it
was not provided; an explicitly provided value, zero included, is kept as is. -/
structure AssignmentConfig where
  assignment_id : String
  assignment_name : String
  course_code : Option String := none
  questions : List QuestionConfig
  general_rubric : Option RubricConfig := none
  answer_key_text : Option String := none
  total_points : Option ℚ := none
  grading_instructions : Option String := none
  allow_partial_credit : Bool := true
deriving Repr, DecidableEq

/-- Embedding of QuestionGrade (src/src/models/grading_result.py).  The two
image fields are the extra fields the engine passes through pydantic
Config extra allow. -/
structure QuestionGrade where
  question_id : String
  score : ℚ
  max_score : ℚ
  reasoning : String
  feedback : Option String := none
  criteria_met : Option (List String) := none
  criteria_missed : Option (List String) := none
  deductions : Option (List (String × ℚ)) := none
  extracted_from_image : Bool := false
  image_processing_notes : Option String := none
deriving Repr, DecidableEq

/-- Embedding of the validator QuestionGrade.validate_score
(src/src/models/grading_result.py, lines 33 to 39).  infoData is the set of
numeric fields already validated when the validator runs. -/
def validate_score (infoData : List (String × ℚ)) (v : ℚ) : Except String ℚ :=
  match infoData.lookup "max_score" with
  | some m => if v > m then Except.error "Score cannot exceed max_score" else Except.ok v
  | none => Except.ok v

/-- Pydantic construction of a QuestionGrade.  Fields are validated in
declaration order: question_id, then score with the constraint ge 0 followed
by validate_score, then max_score with the constraint gt 0.  When score is
validated, info.data holds only the previously validated field question_id,
a string, so no numeric field named max_score is available and
validate_score receives an empty numeric info set. -/
def QuestionGrade.construct (question_id : String) (score max_score : ℚ)
    (reasoning : String) (feedback : Option String := none)
    (criteria_met : Option (List String) := none)
    (criteria_missed : Option (List String) := none)
    (deductions : Option (List (String × ℚ)) := none)
    (extracted_from_image : Bool := false)
    (image_processing_notes : Option String := none) : Except String QuestionGrade :=
  if ¬ (0 ≤ score) then Except.error "score must be greater than or equal to 0"
  else
    match validate_score [] score with
    | Except.error e => Except.error e
    | Except.ok score =>
        if ¬ (0 < max_score) then Except.error "max_score must be greater than 0"
        else Except.ok
          { question_id := question_id, score := score, max_score := max_score
            reasoning := reasoning, feedback := feedback
            criteria_met := criteria_met, criteria_missed := criteria_missed
            deductions := deductions, extracted_from_image := extracted_from_image
            image_processing_notes := image_processing_notes }

/-- Embedding of AssignmentGrade (src/src/models/grading_result.py),
restricted to the fields the modelled pipeline reads or writes. -/
structure AssignmentGrade where
  student_name : String
  student_id : Option String := none
  submission_file : Option String := none
  assignment_id : String
  assignment_name : Option String := none
  total_score : ℚ
  max_score : ℚ
  questions : List QuestionGrade
  overall_comment : Option String := none
  strengths : Option (List String) := none
  areas_for_improvement : Option (List String) := none
  requires_human_review : Bool := false
  review_reason : Option String := none
  llm_model : Option String := none
deriving Repr, DecidableEq

/-- Pydantic construction of an AssignmentGrade.  Field order places
total_score (ge 0) before max_score (gt 0) before questions (min_length 1).
The validator validate_total_score fires only when max_score is already in
info.data, and total_score is declared before max_score, so that cross
check is skipped; validate_questions_sum only logs a warning and never
fails. -/
def AssignmentGrade.construct (student_name : String) (student_id : Option String)
    (submission_file : Option String) (assignment_id : String)
    (assignment_name : Option String) (total_score max_score : ℚ)
    (questions : List QuestionGrade) (overall_comment : Option String := none)
    (strengths : Option (List String) := none)
    (areas_for_improvement : Option (List String) := none)
    (requires_human_review : Bool := false)
    (review_reason : Option String := none)
    (llm_model : Option String := none) : Except String AssignmentGrade :=
  if ¬ (0 ≤ total_score) then
    Except.error "total_score must be greater than or equal to 0"
  else if ¬ (0 < max_score) then Except.error "max_score must be greater than 0"
  else if questions.length < 1 then Except.error "questions must have at least 1 item"
  else Except.ok
    { student_name := student_name, student_id := student_id
      submission_file := submission_file, assignment_id := assignment_id
      assignment_name := assignment_name, total_score := total_score
      max_score := max_score, questions := questions
      overall_comment := overall_comment, strengths := strengths
      areas_for_improvement := areas_for_improvement
      requires_human_review := requires_human_review
      review_reason := review_reason, llm_model := llm_model }

/-- Python expression x or 0.0 on an optional float: None and 0.0 are falsy. -/
def pyOrZero : Option ℚ → ℚ
  | none => 0
  | some t => if t = 0 then 0 else t

/-- Embedding of QAGradingAgent._create_error_grade
(src/backend/src/agents/qa_grading_agent.py, lines 421 to 464): one
zero-score QuestionGrade per configured question, then an AssignmentGrade
with total_score 0 and max_score equal to total_points or 0.0.  Each
pydantic construction may raise, which the Python caller does not catch. -/
def createErrorGrade (cfg : AssignmentConfig) (student_name : String)
    (student_id : Option String) (submission_file : Option String)
    (model_name : Option String) : Except String AssignmentGrade := do
  let question_grades ← cfg.questions.mapM fun q =>
    QuestionGrade.construct q.id 0 q.points
      "Error: Unable to grade this question due to processing failure"
      (some "Please contact instructor for manual review")
  AssignmentGrade.construct student_name student_id submission_file
    cfg.assignment_id (some cfg.assignment_name) 0 (pyOrZero cfg.total_points)
    question_grades
    (some "Error processing submission - requires manual review")
    none none true (some "Processing error during automated grading") model_name

/-- Claim C2, code-bug evaluation: constructing a QuestionGrade whose score
exceeds max_score succeeds, because validate_score never sees max_score
(pydantic validates score first, so its info.data guard is always false);
had the field order made max_score available, the very same validator would
have rejected the value, as the second conjunct shows. -/
theorem c2_score_above_max_accepted :
    QuestionGrade.construct "q1" 5 3 "model asserted five of three" =
      Except.ok { question_id := "q1", score := 5, max_score := 3
                  reasoning := "model asserted five of three" } ∧
    validate_score [("max_score", 3)] 5 =
      Except.error "Score cannot exceed max_score" := by
  constructor
  · rfl
  · rfl

/-- Demo question used by concrete witnesses. -/
def demoQuestion : QuestionConfig :=
  { id := "q1", text := "State the pumping lemma", points := 10 }

/-- Demo assignment configuration used by concrete witnesses. -/
def demoConfig : AssignmentConfig :=
  { assignment_id := "hw1", assignment_name := "Homework 1"
    questions := [demoQuestion], total_points := some 10 }

/-- Demo assignment configuration whose explicitly provided total_points is
zero. -/
def demoZeroConfig : AssignmentConfig :=
  { assignment_id := "hw0", assignment_name := "Homework 0"
    questions := [demoQuestion], total_points := some 0 }

/-- Demo question grade used by concrete witnesses. -/
def demoQuestionGrade : QuestionGrade :=
  { question_id := "q1", score := 0, max_score := 10, reasoning := "graded" }

/-- Claim C9: an AssignmentGrade cannot be constructed from an empty
question list or a non-positive max_score, and consequently the error-grade
constructor, which passes max_score equal to total_points or 0.0, itself
raises for an assignment whose total points are zero. -/
theorem c9_submission_grade_construction_guards :
    (∀ (sn : String) (sid sf : Option String) (aid : String)
       (an : Option String) (ts ms : ℚ) (qs : List QuestionGrade),
       qs = [] →
       ∃ e, AssignmentGrade.construct sn sid sf aid an ts ms qs = Except.error e) ∧
    (∀ (sn : String) (sid sf : Option String) (aid : String)
       (an : Option String) (ts ms : ℚ) (qs : List QuestionGrade),
       ms ≤ 0 →
       ∃ e, AssignmentGrade.construct sn sid sf aid an ts ms qs = Except.error e) ∧
    (∀ (cfg : AssignmentConfig) (sn : String) (sid sf mm : Option String),
       cfg.total_points = some 0 →
       ∃ e, createErrorGrade cfg sn sid sf mm = Except.error e) := by
  refine ⟨?_, ?_, ?_⟩
  · intro sn sid sf aid an ts ms qs hq
    subst hq
    unfold AssignmentGrade.construct
    split
    · exact ⟨_, rfl⟩
    · split
      · exact ⟨_, rfl⟩
      · rw [if_pos (by simp)]
        exact ⟨_, rfl⟩
  · intro sn sid sf aid an ts ms qs hms
    unfold AssignmentGrade.construct
    split
    · exact ⟨_, rfl⟩
    · rw [if_pos (by intro h; exact absurd hms (not_le.mpr h))]
      exact ⟨_, rfl⟩
  · intro cfg sn sid sf mm htp
    unfold createErrorGrade
    have hms : pyOrZero cfg.total_points = 0 := by simp [htp, pyOrZero]
    cases hmap : cfg.questions.mapM fun q =>
        QuestionGrade.construct q.id 0 q.points
          "Error: Unable to grade this question due to processing failure"
          (some "Please contact instructor for manual review") with
    | error e => exact ⟨e, by simp [bind, Except.bind, hmap]⟩
    | ok qgs =>
        refine ⟨"max_score must be greater than 0", ?_⟩
        simp only [bind, Except.bind, hmap, hms]
        unfold AssignmentGrade.construct
        rw [if_neg (by norm_num), if_pos (by norm_num)]

/-- Witness for C9 at concrete inputs: an empty question list, a zero
max_score, and the demo assignment whose total points are zero. -/
theorem c9_witness :
    (∃ e, AssignmentGrade.construct "sam" none none "hw1" none 0 10 [] =
      Except.error e) ∧
    (∃ e, AssignmentGrade.construct "sam" none none "hw1" none 0 0
      [demoQuestionGrade] = Except.error e) ∧
    (∃ e, createErrorGrade demoZeroConfig "sam" none none none =
      Except.error e) := by
  refine ⟨?_, ?_, ?_⟩
  · exact c9_submission_grade_construction_guards.1 "sam" none none "hw1" none
      0 10 [] rfl
  · exact c9_submission_grade_construction_guards.2.1 "sam" none none "hw1" none
      0 0 [demoQuestionGrade] (by norm_num)
  · exact c9_submission_grade_construction_guards.2.2 demoZeroConfig "sam"
      none none none rfl

/-- Parsed JSON payload of a grading model response.  Every field is read
with dict.get and a default by the engine. -/
structure GradingData where
  question_id : Option String := none
  score : Option ℚ := none
  max_score : Option ℚ := none
  reasoning : Option String := none
  feedback : Option String := none
  criteria_met : Option (List String) := none
  criteria_missed : Option (List String) := none
  deductions : Option (List (String × ℚ)) := none
deriving Repr, DecidableEq

/-- Outcome of one model invocation: the transport may throw, or return a
response whose three-stage JSON parse (_parse_llm_response) yields either a
structured value or nothing. -/
inductive LLMOutcome (α : Type)
  | throws
  | returns (parsed : Option α)
deriving Repr, DecidableEq

/-- Answer record handed to the grading engine: the dictionary produced by
the extraction stage, read with dict.get defaults. -/
structure AnswerData where
  text : String := ""
  extracted_from_image : Bool := false
  extraction_notes : Option String := none
  images : List String := []
deriving Repr, DecidableEq

/-- Embedding of the second _create_error_question_grade
(src/backend/src/agents/qa_grading_agent.py, lines 594 to 619).  The
pydantic construction inside it succeeds whenever question points are
positive, which the QuestionConfig constraint points gt 0 guarantees. -/
def errorQuestionGrade (question : QuestionConfig) (extracted_from_image : Bool)
    (extraction_notes : Option String) : QuestionGrade :=
  { question_id := question.id, score := 0, max_score := question.points
    reasoning := "Error: Unable to grade this question due to processing failure"
    feedback := some "Please contact instructor for manual review"
    extracted_from_image := extracted_from_image
    image_processing_notes := extraction_notes }

/-- Embedding of the first _create_error_question_grade
(src/backend/src/agents/qa_grading_agent.py, lines 302 to 327), whose notes
argument is a plain string with empty meaning absent. -/
def errorQuestionGradeV1 (question : QuestionConfig) (extracted_from_image : Bool)
    (extraction_notes : String) : QuestionGrade :=
  { question_id := question.id, score := 0, max_score := question.points
    reasoning := "Error: Unable to grade this question due to processing failure"
    feedback := some "Please contact instructor for manual review"
    extracted_from_image := extracted_from_image
    image_processing_notes :=
      if extraction_notes = "" then none else some extraction_notes }

/-- Embedding of the effective QAGradingAgent.grade_single_question: the
class defines the method twice and the second definition
(src/backend/src/agents/qa_grading_agent.py, lines 509 to 592) shadows the
first.  A blank answer text is replaced by the sentinel string and grading
proceeds; the prompt is then submitted to the model, so every invocation
performs exactly one model call.  The second component of the result counts
the model invocations. -/
def grade_single_question (question : QuestionConfig) (answer_data : AnswerData)
    (cfg : AssignmentConfig) (context : Option String)
    (llm : LLMOutcome GradingData) : QuestionGrade × Nat :=
  let efi := answer_data.extracted_from_image
  let notes := answer_data.extraction_notes
  let answer_text :=
    if answer_data.text = "" ∨ strTrim answer_data.text = "" then
      "No answer provided"
    else answer_data.text
  -- the prompt built from answer_text and context is consumed by the
  -- model call abstracted as the llm oracle
  match llm with
  | LLMOutcome.throws => (errorQuestionGrade question efi notes, 1)
  | LLMOutcome.returns none => (errorQuestionGrade question efi notes, 1)
  | LLMOutcome.returns (some gd) =>
      match QuestionGrade.construct (gd.question_id.getD question.id)
          (gd.score.getD 0) (gd.max_score.getD question.points)
          (gd.reasoning.getD "No reasoning provided") gd.feedback
          gd.criteria_met gd.criteria_missed gd.deductions efi notes with
      | Except.ok g => (g, 1)
      | Except.error _ => (errorQuestionGrade question efi notes, 1)

/-- Embedding of the first, shadowed QAGradingAgent.grade_single_question
(src/backend/src/agents/qa_grading_agent.py, lines 119 to 229): an answer
whose text is empty or strips to the sentinel short-circuits to a fixed
zero-score grade with no model call. -/
def grade_single_question_v1 (question : QuestionConfig) (answer_data : AnswerData)
    (cfg : AssignmentConfig) (context : Option (List (String × AnswerData)))
    (llm : LLMOutcome GradingData) : QuestionGrade × Nat :=
  let efi := answer_data.extracted_from_image
  let notes := answer_data.extraction_notes.getD ""
  if answer_data.text = "" ∨ strTrim answer_data.text = "No answer provided" then
    ({ question_id := question.id, score := 0, max_score := question.points
       reasoning := "No answer provided for this question"
       feedback := some "Please ensure you answer all questions in future submissions"
       extracted_from_image := efi
       image_processing_notes := if notes = "" then none else some notes }, 0)
  else
    match llm with
    | LLMOutcome.throws => (errorQuestionGradeV1 question efi notes, 1)
    | LLMOutcome.returns none => (errorQuestionGradeV1 question efi notes, 1)
    | LLMOutcome.returns (some gd) =>
        match QuestionGrade.construct (gd.question_id.getD question.id)
            (gd.score.getD 0) (gd.max_score.getD question.points)
            (gd.reasoning.getD "No reasoning provided") gd.feedback
            gd.criteria_met gd.criteria_missed gd.deductions efi
            (if notes = "" then none else some notes) with
        | Except.ok g => (g, 1)
        | Except.error _ => (errorQuestionGradeV1 question efi notes, 1)

/-- Answer record with blank text. -/
def blankAnswer : AnswerData := { text := "" }

/-- A model response asserting full credit. -/
def fullScoreResponse : GradingData :=
  { score := some 10, max_score := some 10, reasoning := some "all correct" }

/-- Claim C1, code-bug evaluation at a blank answer: the effective
grade_single_question (the second of the two same-named method definitions,
which shadows the first) performs one model call and returns whatever score
the model asserts, here 10, while the shadowed first definition realises the
specified behaviour: the fixed zero-score grade and no model call. -/
theorem c1_blank_answer_is_graded_by_model :
    (grade_single_question demoQuestion blankAnswer demoConfig none
        (LLMOutcome.returns (some fullScoreResponse))).2 = 1 ∧
    (grade_single_question demoQuestion blankAnswer demoConfig none
        (LLMOutcome.returns (some fullScoreResponse))).1.score = 10 ∧
    (grade_single_question demoQuestion blankAnswer demoConfig none
        LLMOutcome.throws).2 = 1 ∧
    grade_single_question_v1 demoQuestion blankAnswer demoConfig none
        (LLMOutcome.returns (some fullScoreResponse)) =
      ({ question_id := "q1", score := 0, max_score := 10
         reasoning := "No answer provided for this question"
         feedback := some "Please ensure you answer all questions in future submissions" },
       0) := by
  refine ⟨rfl, rfl, rfl, rfl⟩

/-- Embedding of QuestionGrade.get_percentage. -/
def questionPercentage (q : QuestionGrade) : ℚ :=
  if q.max_score > 0 then q.score / q.max_score * 100 else 0

/-- Statistics record produced by ReportGenerator._calculate_statistics,
restricted to the fields read by the human-review rule; the mean and median
of question percentages are computed by the source but consumed by no
modelled operation. -/
structure GradeStats where
  total_score : ℚ
  max_score : ℚ
  percentage : ℚ
  num_perfect : Nat
  num_zero : Nat
deriving Repr, DecidableEq

/-- Embedding of ReportGenerator._calculate_statistics
(src/backend/src/agents/report_generator.py, lines 121 to 168). -/
def calcStatistics (grades : List QuestionGrade) : GradeStats :=
  if grades = [] then
    { total_score := 0, max_score := 0, percentage := 0
      num_perfect := 0, num_zero := 0 }
  else
    let total := (grades.map fun q => q.score).sum
    let maxS := (grades.map fun q => q.max_score).sum
    { total_score := total, max_score := maxS
      percentage := if maxS > 0 then total / maxS * 100 else 0
      num_perfect := (grades.filter fun q => decide (q.score = q.max_score)).length
      num_zero := (grades.filter fun q => decide (q.score = 0)).length }

/-- Reasons list accumulated by ReportGenerator._check_human_review_needed
(src/backend/src/agents/report_generator.py, lines 346 to 372): the four
checks append their message in order. -/
def humanReviewReasons (grades : List QuestionGrade) (stats : GradeStats) :
    List String :=
  let reasons : List String := []
  let reasons :=
    if (stats.num_zero : ℚ) > (grades.length : ℚ) / 2 then
      reasons ++ ["More than half of questions received zero points"]
    else reasons
  let reasons :=
    if stats.percentage > 95 ∧ stats.num_perfect < grades.length then
      reasons ++ ["Near-perfect score with some deductions - verify grading"]
    else reasons
  let image_issues :=
    (grades.filter fun q =>
      q.extracted_from_image &&
        strContains (toLowerStr (q.image_processing_notes.getD "")) "error").length
  let reasons :=
    if image_issues > 0 then
      reasons ++ [toString image_issues ++ " question(s) had image extraction issues"]
    else reasons
  let unclear_grading :=
    (grades.filter fun q =>
      decide (q.score = 0) && decide (q.reasoning.length < 50)).length
  let reasons :=
    if unclear_grading > 0 then
      reasons ++
        [toString unclear_grading ++ " question(s) received zero with minimal explanation"]
    else reasons
  reasons

/-- Embedding of ReportGenerator._check_human_review_needed
(src/backend/src/agents/report_generator.py, lines 331 to 377). -/
def checkHumanReviewNeeded (grades : List QuestionGrade) (stats : GradeStats) :
    Bool × Option String :=
  let reasons := humanReviewReasons grades stats
  if reasons ≠ [] then (true, some (String.intercalate "; " reasons)) else (false, none)

lemma humanReviewReasons_ne_nil_iff (grades : List QuestionGrade)
    (stats : GradeStats) :
    humanReviewReasons grades stats ≠ [] ↔
      ((stats.num_zero : ℚ) > (grades.length : ℚ) / 2 ∨
       (stats.percentage > 95 ∧ stats.num_perfect < grades.length) ∨
       0 < (grades.filter fun q =>
         q.extracted_from_image &&
           strContains (toLowerStr (q.image_processing_notes.getD "")) "error").length ∨
       0 < (grades.filter fun q =>
         decide (q.score = 0) && decide (q.reasoning.length < 50)).length) := by
  unfold humanReviewReasons
  by_cases h1 : (stats.num_zero : ℚ) > (grades.length : ℚ) / 2 <;>
  by_cases h2 : stats.percentage > 95 ∧ stats.num_perfect < grades.length <;>
  by_cases h3 : 0 < (grades.filter fun q =>
      q.extracted_from_image &&
        strContains (toLowerStr (q.image_processing_notes.getD "")) "error").length <;>
  by_cases h4 : 0 < (grades.filter fun q =>
      decide (q.score = 0) && decide (q.reasoning.length < 50)).length <;>
  simp [h1, h2, h3, h4]

lemma calcStatistics_num_zero (grades : List QuestionGrade) :
    (calcStatistics grades).num_zero =
      (grades.filter fun q => decide (q.score = 0)).length := by
  cases grades <;> simp [calcStatistics]

lemma calcStatistics_num_perfect (grades : List QuestionGrade) :
    (calcStatistics grades).num_perfect =
      (grades.filter fun q => decide (q.score = q.max_score)).length := by
  cases grades <;> simp [calcStatistics]

lemma half_lt_iff (z n : Nat) : ((z : ℚ) > (n : ℚ) / 2) ↔ 2 * z > n := by
  rw [gt_iff_lt, div_lt_iff₀ (by norm_num : (0 : ℚ) < 2)]
  constructor
  · intro h
    have hn : (n : ℚ) < 2 * z := by linarith
    exact_mod_cast hn
  · intro h
    have hn : (n : ℚ) < 2 * z := by exact_mod_cast h
    linarith

lemma filter_length_pos_iff {α : Type} (p : α → Bool) (l : List α) :
    0 < (l.filter p).length ↔ ∃ a ∈ l, p a = true := by
  rw [List.length_pos, Ne, List.filter_eq_nil_iff]
  push_neg
  simp

lemma filter_length_lt_iff {α : Type} (p : α → Bool) (l : List α) :
    (l.filter p).length < l.length ↔ ¬ ∀ a ∈ l, p a = true := by
  constructor
  · intro h hall
    rw [List.filter_eq_self.mpr hall] at h
    exact lt_irrefl _ h
  · intro h
    rcases not_forall.mp h with ⟨a, ha⟩
    rcases Classical.not_imp.mp ha with ⟨hmem, hpa⟩
    exact List.length_filter_lt_length_iff_exists.mpr ⟨a, hmem, by simpa using hpa⟩

lemma checkHumanReviewNeeded_pos (grades : List QuestionGrade) (stats : GradeStats)
    (hne : humanReviewReasons grades stats ≠ []) :
    checkHumanReviewNeeded grades stats =
      (true, some (String.intercalate "; " (humanReviewReasons grades stats))) := by
  unfold checkHumanReviewNeeded
  exact if_pos hne

lemma checkHumanReviewNeeded_neg (grades : List QuestionGrade) (stats : GradeStats)
    (hnil : ¬ humanReviewReasons grades stats ≠ []) :
    checkHumanReviewNeeded grades stats = (false, none) := by
  unfold checkHumanReviewNeeded
  exact if_neg hnil

/-- Claim C4: the human-review flag is true, with a semicolon-joined reason
list, exactly when at least one of the four conditions holds: strictly more
than half of the questions scored zero; overall percentage strictly above 95
while not every question has score equal to its max_score; at least one
question extracted from an image whose processing notes mention an error; at
least one zero-score question whose reasoning is shorter than 50 characters.
Otherwise the flag is false with no reason. -/
theorem c4_human_review_rule (grades : List QuestionGrade) :
    ((checkHumanReviewNeeded grades (calcStatistics grades)).1 = true ↔
      (2 * (grades.filter fun q => decide (q.score = 0)).length > grades.length ∨
       ((calcStatistics grades).percentage > 95 ∧
         ¬ ∀ q ∈ grades, q.score = q.max_score) ∨
       (∃ q ∈ grades, q.extracted_from_image = true ∧
         strContains (toLowerStr (q.image_processing_notes.getD "")) "error" = true) ∨
       (∃ q ∈ grades, q.score = 0 ∧ q.reasoning.length < 50))) ∧
    ((checkHumanReviewNeeded grades (calcStatistics grades)).1 = false →
      (checkHumanReviewNeeded grades (calcStatistics grades)).2 = none) ∧
    ((checkHumanReviewNeeded grades (calcStatistics grades)).1 = true →
      ∃ rs : List String, rs ≠ [] ∧
        (checkHumanReviewNeeded grades (calcStatistics grades)).2 =
          some (String.intercalate "; " rs)) := by
  have e1 : ((calcStatistics grades).num_zero : ℚ) > (grades.length : ℚ) / 2 ↔
      2 * (grades.filter fun q => decide (q.score = 0)).length > grades.length := by
    rw [calcStatistics_num_zero, half_lt_iff]
  have e2 : (calcStatistics grades).num_perfect < grades.length ↔
      ¬ ∀ q ∈ grades, q.score = q.max_score := by
    rw [calcStatistics_num_perfect, filter_length_lt_iff]
    simp
  have e3 : 0 < (grades.filter fun q =>
        q.extracted_from_image &&
          strContains (toLowerStr (q.image_processing_notes.getD "")) "error").length ↔
      ∃ q ∈ grades, q.extracted_from_image = true ∧
        strContains (toLowerStr (q.image_processing_notes.getD "")) "error" = true := by
    rw [filter_length_pos_iff]
    simp
  have e4 : 0 < (grades.filter fun q =>
        decide (q.score = 0) && decide (q.reasoning.length < 50)).length ↔
      ∃ q ∈ grades, q.score = 0 ∧ q.reasoning.length < 50 := by
    rw [filter_length_pos_iff]
    simp
  have hiff := humanReviewReasons_ne_nil_iff grades (calcStatistics grades)
  rw [e1, e2, e3, e4] at hiff
  by_cases hne : humanReviewReasons grades (calcStatistics grades) ≠ []
  · rw [checkHumanReviewNeeded_pos grades (calcStatistics grades) hne]
    refine ⟨?_, ?_, ?_⟩
    · simpa using hiff.mp hne
    · intro h
      simp at h
    · intro _
      exact ⟨humanReviewReasons grades (calcStatistics grades), hne, rfl⟩
  · rw [checkHumanReviewNeeded_neg grades (calcStatistics grades) hne]
    refine ⟨?_, ?_, ?_⟩
    · constructor
      · intro h
        simp at h
      · intro h
        exact absurd (hiff.mpr h) hne
    · intro _
      rfl
    · intro h
      simp at h

/-- Demo list in which every question scored zero, so strictly more than
half of the questions scored zero. -/
def demoZeroGrades : List QuestionGrade :=
  [{ question_id := "q1", score := 0, max_score := 5
     reasoning := "The submission presents no valid argument for the first claim" },
   { question_id := "q2", score := 0, max_score := 5
     reasoning := "The submission presents no valid argument for the second claim" }]

/-- Witness for C4: on the all-zero demo list the flag is raised with a
semicolon-joined reason list. -/
theorem c4_witness :
    (checkHumanReviewNeeded demoZeroGrades (calcStatistics demoZeroGrades)).1 = true ∧
    ∃ rs : List String, rs ≠ [] ∧
      (checkHumanReviewNeeded demoZeroGrades (calcStatistics demoZeroGrades)).2 =
        some (String.intercalate "; " rs) := by
  have h := c4_human_review_rule demoZeroGrades
  have hflag := h.1.mpr (Or.inl (by decide))
  exact ⟨hflag, h.2.2 hflag⟩

/-- Outcome of routing one student group through the per-type grading
helpers of GradingWorkflow: the helper returns a grade, or catches its own
exception and returns None, or lets an exception escape into the
per-student except handler of process_all_submissions. -/
inductive StudentOutcome
  | graded (g : AssignmentGrade)
  | returnedNone
  | raised
deriving Repr, DecidableEq

/-- Embedding of the per-student loop of
GradingWorkflow.process_all_submissions (src/backend/cli.py, lines 213 to
286).  The grading route taken by each student group is abstracted as the
outcome function; error_grade abstracts the value produced by
_create_error_grade in the except branch (whose own possible failure is the
subject of C9).  A graded outcome appends the grade, a None outcome only
logs and appends nothing, an escaped exception appends the error grade. -/
def process_all_submissions (groups : List (String × List String))
    (outcome : String → List String → StudentOutcome)
    (error_grade : String → List String → AssignmentGrade) :
    List AssignmentGrade :=
  groups.foldl
    (fun grades kv =>
      match outcome kv.1 kv.2 with
      | StudentOutcome.graded g => grades ++ [g]
      | StudentOutcome.returnedNone => grades
      | StudentOutcome.raised => grades ++ [error_grade kv.1 kv.2])
    []

/-- Demo assignment grade used by the orchestrator counterexample. -/
def demoAssignmentGrade : AssignmentGrade :=
  { student_name := "sam", assignment_id := "hw1", total_score := 0
    max_score := 10, questions := [demoQuestionGrade] }

/-- Counterexample to C3: one student group whose document-grading helper
catches its internal exception and returns None is silently omitted, so the
batch yields zero grades for one group and the claimed invariant
len(output_grades) == len(student_groups) fails. -/
theorem c3_counterexample :
    (process_all_submissions [("alice_123456", ["alice_123456_hw1.pdf"])]
        (fun _ _ => StudentOutcome.returnedNone)
        (fun _ _ => demoAssignmentGrade)).length = 0 ∧
    [("alice_123456", ["alice_123456_hw1.pdf"])].length = 1 := by
  constructor <;> rfl

lemma process_all_submissions_foldl (groups : List (String × List String))
    (outcome : String → List String → StudentOutcome)
    (error_grade : String → List String → AssignmentGrade)
    (acc : List AssignmentGrade) :
    (groups.foldl
      (fun grades kv =>
        match outcome kv.1 kv.2 with
        | StudentOutcome.graded g => grades ++ [g]
        | StudentOutcome.returnedNone => grades
        | StudentOutcome.raised => grades ++ [error_grade kv.1 kv.2]) acc).length =
      acc.length +
        (groups.filter fun kv =>
          decide (outcome kv.1 kv.2 ≠ StudentOutcome.returnedNone)).length := by
  induction groups generalizing acc with
  | nil => simp
  | cons kv rest ih =>
      rw [List.foldl_cons]
      cases h : outcome kv.1 kv.2 <;>
        simp [List.filter_cons, h, ih] <;> omega

/-- Claim C3 amended: the batch output contains exactly one grade per group
whose helper outcome is not a caught-and-None failure; in particular the
output never exceeds the group count, and the claimed equality holds
exactly when no helper returned None.  A raised exception does yield an
error grade, but a helper that returns None omits its student. -/
theorem c3_batch_size_amended (groups : List (String × List String))
    (outcome : String → List String → StudentOutcome)
    (error_grade : String → List String → AssignmentGrade) :
    (process_all_submissions groups outcome error_grade).length =
      (groups.filter fun kv =>
        decide (outcome kv.1 kv.2 ≠ StudentOutcome.returnedNone)).length ∧
    (process_all_submissions groups outcome error_grade).length ≤ groups.length ∧
    ((∀ kv ∈ groups, outcome kv.1 kv.2 ≠ StudentOutcome.returnedNone) →
      (process_all_submissions groups outcome error_grade).length = groups.length) := by
  have hfold := process_all_submissions_foldl groups outcome error_grade []
  refine ⟨?_, ?_, ?_⟩
  · simpa [process_all_submissions] using hfold
  · have hle := List.length_filter_le
      (fun kv : String × List String =>
        decide (outcome kv.1 kv.2 ≠ StudentOutcome.returnedNone)) groups
    simpa [process_all_submissions, hfold] using hle
  · intro hall
    have : (groups.filter fun kv =>
        decide (outcome kv.1 kv.2 ≠ StudentOutcome.returnedNone)) = groups := by
      rw [List.filter_eq_self]
      intro kv hkv
      simpa using hall kv hkv
    simp [process_all_submissions, hfold, this]
    intro a b hab
    exact hall (a, b) hab

/-- Witness for C3 amended, at a two-group batch where one group is graded
and one raises into the except branch: both students receive a grade. -/
theorem c3_witness :
    (process_all_submissions
        [("alice_123456", ["alice_123456_hw1.pdf"]),
         ("bob_654321", ["bob_654321_hw1.pdf"])]
        (fun name _ =>
          if name = "alice_123456" then StudentOutcome.graded demoAssignmentGrade
          else StudentOutcome.raised)
        (fun _ _ => demoAssignmentGrade)).length = 2 := by
  have h := (c3_batch_size_amended
    [("alice_123456", ["alice_123456_hw1.pdf"]),
     ("bob_654321", ["bob_654321_hw1.pdf"])]
    (fun name _ =>
      if name = "alice_123456" then StudentOutcome.graded demoAssignmentGrade
      else StudentOutcome.raised)
    (fun _ _ => demoAssignmentGrade)).2.2 (by decide)
  simpa using h

/-- Opaque PIL image: only the pixel dimensions drive control flow. -/
structure PILImage where
  width : Nat
  height : Nat
deriving Repr, DecidableEq

/-- Embedding of AnswerExtractionAgent._extract_images_pymupdf
(src/backend/src/agents/answer_extraction_agent.py, lines 152 to 200): the
embedded images that extract successfully, kept only when both dimensions
exceed 100 pixels. -/
def extract_images_pymupdf (raw : List PILImage) : List PILImage :=
  raw.filter fun i => decide (100 < i.width) && decide (100 < i.height)

/-- One rasterized PDF page. -/
structure RasterPage where
  page : Nat
  dpi : Nat
deriving Repr, DecidableEq

/-- Embedding of AnswerExtractionAgent._convert_pages_to_images
(src/backend/src/agents/answer_extraction_agent.py, lines 202 to 247):
documents above the 20-page ceiling are skipped entirely, otherwise pages 1
through min(page_count, max_pages) are rasterized at the given DPI. -/
def convert_pages_to_images (page_count : Nat) (max_pages : Option Nat)
    (dpi : Nat) : List RasterPage :=
  let last_page :=
    match max_pages with
    | some m => min page_count m
    | none => page_count
  if page_count > 20 then []
  else (List.range' 1 last_page).map fun p => { page := p, dpi := dpi }

/-- Images produced by the hybrid extraction chain. -/
inductive HybridImages
  | embedded (imgs : List PILImage)
  | rasterized (pages : List RasterPage)
  | noneFound
deriving Repr, DecidableEq

/-- Embedding of AnswerExtractionAgent._extract_images_hybrid
(src/backend/src/agents/answer_extraction_agent.py, lines 119 to 150):
embedded extraction first; only when it finds nothing are pages converted,
with max_pages 10 at the default 150 DPI. -/
def extract_images_hybrid (raw : List PILImage) (page_count : Nat) :
    HybridImages × Bool :=
  let images := extract_images_pymupdf raw
  if images ≠ [] then (HybridImages.embedded images, true)
  else
    let pages := convert_pages_to_images page_count (some 10) 150
    if pages ≠ [] then (HybridImages.rasterized pages, true)
    else (HybridImages.noneFound, false)

/-- Counterexample to C7: a 15-page PDF with no embedded images is below
the skip ceiling, yet only its first 10 pages are rasterized, not every
page as the claim states. -/
theorem c7_counterexample :
    extract_images_hybrid [] 15 =
      (HybridImages.rasterized
        ((List.range' 1 10).map fun p => { page := p, dpi := 150 }), true) ∧
    ((List.range' 1 10).map
      fun p => ({ page := p, dpi := 150 } : RasterPage)).length = 10 ∧
    (10 : Nat) ≠ 15 := by
  refine ⟨rfl, rfl, by decide⟩

/-- Claim C7 amended: rasterization runs exactly when the dimension
filtered embedded extraction found nothing and the page count is at most
the 20-page ceiling (and the document has at least one page); when it runs
it rasterizes pages 1 through min(page_count, 10) at 150 DPI, so every page
only for documents of at most 10 pages; above the ceiling it is skipped,
returning no images. -/
theorem c7_raster_fallback_amended (raw : List PILImage) (page_count : Nat) :
    (extract_images_pymupdf raw ≠ [] →
      extract_images_hybrid raw page_count =
        (HybridImages.embedded (extract_images_pymupdf raw), true)) ∧
    (extract_images_pymupdf raw = [] → 20 < page_count →
      extract_images_hybrid raw page_count = (HybridImages.noneFound, false)) ∧
    (extract_images_pymupdf raw = [] → page_count ≤ 20 → 1 ≤ page_count →
      extract_images_hybrid raw page_count =
        (HybridImages.rasterized
          ((List.range' 1 (min page_count 10)).map
            fun p => { page := p, dpi := 150 }), true)) ∧
    (extract_images_pymupdf raw = [] → page_count = 0 →
      extract_images_hybrid raw page_count = (HybridImages.noneFound, false)) := by
  have hskip : 20 < page_count →
      convert_pages_to_images page_count (some 10) 150 = [] := by
    intro hpc
    unfold convert_pages_to_images
    rw [if_pos (by omega)]
  have hrun : page_count ≤ 20 →
      convert_pages_to_images page_count (some 10) 150 =
        (List.range' 1 (min page_count 10)).map
          fun p => { page := p, dpi := 150 } := by
    intro hle
    unfold convert_pages_to_images
    rw [if_neg (by omega)]
  refine ⟨?_, ?_, ?_, ?_⟩
  · intro hne
    unfold extract_images_hybrid
    exact if_pos hne
  · intro hnil hpc
    show (if extract_images_pymupdf raw ≠ [] then
            (HybridImages.embedded (extract_images_pymupdf raw), true)
          else
            if convert_pages_to_images page_count (some 10) 150 ≠ [] then
              (HybridImages.rasterized
                (convert_pages_to_images page_count (some 10) 150), true)
            else (HybridImages.noneFound, false)) = (HybridImages.noneFound, false)
    rw [hnil, hskip hpc]
    simp
  · intro hnil hle hpos
    show (if extract_images_pymupdf raw ≠ [] then
            (HybridImages.embedded (extract_images_pymupdf raw), true)
          else
            if convert_pages_to_images page_count (some 10) 150 ≠ [] then
              (HybridImages.rasterized
                (convert_pages_to_images page_count (some 10) 150), true)
            else (HybridImages.noneFound, false)) =
          (HybridImages.rasterized
            ((List.range' 1 (min page_count 10)).map
              fun p => { page := p, dpi := 150 }), true)
    rw [hnil, hrun hle]
    have hne : ((List.range' 1 (min page_count 10)).map
        fun p => ({ page := p, dpi := 150 } : RasterPage)) ≠ [] := by
      intro h
      have hlen := congrArg List.length h
      simp [List.length_range'] at hlen
      omega
    simp [hne]
  · intro hnil hzero
    subst hzero
    show (if extract_images_pymupdf raw ≠ [] then
            (HybridImages.embedded (extract_images_pymupdf raw), true)
          else
            if convert_pages_to_images 0 (some 10) 150 ≠ [] then
              (HybridImages.rasterized (convert_pages_to_images 0 (some 10) 150), true)
            else (HybridImages.noneFound, false)) = (HybridImages.noneFound, false)
    rw [hnil, hrun (by omega)]
    simp

/-- Witness for C7 amended at a 15-page scanned document: the rasterized
fallback produces pages 1 through 10. -/
theorem c7_witness :
    extract_images_hybrid [{ width := 50, height := 50 }] 15 =
      (HybridImages.rasterized
        ((List.range' 1 10).map fun p => { page := p, dpi := 150 }), true) := by
  have h := (c7_raster_fallback_amended [{ width := 50, height := 50 }] 15).2.2.1
    (by decide) (by decide) (by decide)
  simpa using h

/-- Well-formed entry of the parsed question-mapping JSON of the aligner:
the text/confidence object shape the prompt requests. -/
structure MapEntry where
  text : String
  confidence : String
deriving Repr, DecidableEq

/-- Value stored under one question id of the parsed mapping JSON.  The
parse places no constraint on the shape of the values, and
_llm_map_to_questions copies them through verbatim (line 476), so a value
is either the expected object or any other JSON value, carried here as an
opaque payload; only the metadata loop of _map_content_to_questions later
trips over a malformed one. -/
inductive MapValue
  | entry (e : MapEntry)
  | malformed (raw : String)
deriving Repr, DecidableEq

/-- Test whether a parsed mapping value is the object shape the metadata
loop of _map_content_to_questions can read and update; on any other value
that loop raises a TypeError or AttributeError. -/
def isWellFormedValue : MapValue → Bool
  | MapValue.entry _ => true
  | MapValue.malformed _ => false

/-- Embedding of AnswerExtractionAgent._llm_map_to_questions
(src/backend/src/agents/answer_extraction_agent.py, lines 402 to 493).  The
model call and the JSON parse attempts are abstracted as the parsed oracle:
some mapping when one parse attempt succeeds, none when the call throws or
every parse fails.  On success each question takes its value from the
mapping verbatim, or a fresh empty low-confidence entry when its id is
absent; on total failure every question receives the whole combined
content when the assignment has exactly one question, an empty answer
otherwise. -/
def llm_map_to_questions (content : String) (questions : List QuestionConfig)
    (parsed : Option (List (String × MapValue))) : List (String × MapValue) :=
  match parsed with
  | some mapping_data =>
      questions.map fun q =>
        match mapping_data.lookup q.id with
        | some v => (q.id, v)
        | none => (q.id, MapValue.entry { text := "", confidence := "low" })
  | none =>
      questions.map fun q =>
        (q.id, MapValue.entry
          { text := if questions.length = 1 then content else ""
            confidence := "low" })

/-- Answer record produced by the question aligner.  The confidence key is
present on decorated mapping entries and absent from the error dictionaries
built by the except branch. -/
structure ExtractedAnswer where
  text : String
  confidence : Option String
  images : List String
  extracted_from_image : Bool
  extraction_notes : Option String
deriving Repr, DecidableEq

/-- Combined content handed to the aligner model call in
_map_content_to_questions: the base text, plus the labelled image
transcription when a nonempty transcript was produced. -/
def combinedContent (text_content : String) (images : List PILImage)
    (visionText : String) : String :=
  let image_text := if images ≠ [] then visionText else ""
  if image_text ≠ "" then
    text_content ++ "\n\n--- Content from Images ---\n" ++ image_text
  else text_content

/-- Projection of a mapping whose every value is well formed to its object
entries; none as soon as some value is malformed, which is exactly when the
metadata loop of _map_content_to_questions raises on that value. -/
def mappingEntries : List (String × MapValue) → Option (List (String × MapEntry))
  | [] => some []
  | (k, MapValue.entry e) :: rest =>
      match mappingEntries rest with
      | some es => some ((k, e) :: es)
      | none => none
  | (_, MapValue.malformed _) :: _ => none

/-- Message of the exception the metadata loop raises on a malformed
mapping value.  The Python text interpolated into the except branch note
depends on the concrete TypeError and is read by no modelled operation, so
it is represented by a fixed string. -/
def mappingErrorText : String := "answer value does not support item assignment"

/-- Embedding of AnswerExtractionAgent._map_content_to_questions together
with its per-entry metadata decoration
(src/backend/src/agents/answer_extraction_agent.py, lines 249 to 318).  The
vision transcription of the extracted images is abstracted as visionText
together with the base64 image_data it returns; both are consulted only
when the image list is nonempty.  When every mapping value is well formed
the metadata loop decorates each entry; when some value is malformed the
loop raises and the outer except branch (lines 305 to 316) returns every
question with an empty answer, no images and extracted_from_image false,
even when images were obtained; decorateEntry below is the loop body. -/
def decorateEntry (images : List PILImage) (image_data : List String)
    (entry : String × MapEntry) : String × ExtractedAnswer :=
  let notes :=
    (if images ≠ [] then
      ["Processed " ++ toString images.length ++ " images"] else []) ++
    (if strTrim entry.2.text = "" then ["No text answer found"] else [])
  (entry.1,
    { text := entry.2.text, confidence := some entry.2.confidence
      images := if images ≠ [] then image_data else []
      extracted_from_image := !images.isEmpty
      extraction_notes :=
        if notes = [] then none else some (String.intercalate "; " notes) })

def map_content_to_questions (text_content : String) (images : List PILImage)
    (questions : List QuestionConfig) (visionText : String)
    (image_data : List String) (parsed : Option (List (String × MapValue))) :
    List (String × ExtractedAnswer) :=
  let mapping := llm_map_to_questions
    (combinedContent text_content images visionText) questions parsed
  match mappingEntries mapping with
  | some entries => entries.map (decorateEntry images image_data)
  | none =>
      questions.map fun q =>
        (q.id,
          { text := "", confidence := none, images := []
            extracted_from_image := false
            extraction_notes := some ("Mapping error: " ++ mappingErrorText) })

lemma mappingEntries_mem :
    ∀ (mapping : List (String × MapValue)) (entries : List (String × MapEntry)),
    mappingEntries mapping = some entries →
    ∀ k v, (k, v) ∈ mapping → ∃ e, v = MapValue.entry e ∧ (k, e) ∈ entries := by
  intro mapping
  induction mapping with
  | nil =>
      intro entries _ k v hmem
      simp at hmem
  | cons kv rest ih =>
      intro entries h k v hmem
      obtain ⟨k0, v0⟩ := kv
      cases v0 with
      | malformed raw => simp [mappingEntries] at h
      | entry e0 =>
          cases hrest : mappingEntries rest with
          | none => simp [mappingEntries, hrest] at h
          | some es =>
              have h2 : (k0, e0) :: es = entries := by
                simpa [mappingEntries, hrest] using h
              subst h2
              rcases List.mem_cons.mp hmem with heq | hmem2
              · have hk : k = k0 := congrArg Prod.fst heq
                have hv : v = MapValue.entry e0 := congrArg Prod.snd heq
                subst hk
                exact ⟨e0, hv, List.mem_cons_self _ _⟩
              · rcases ih es hrest k v hmem2 with ⟨e, hv, hm⟩
                exact ⟨e, hv, List.mem_cons_of_mem _ hm⟩

lemma mappingEntries_some_of_wellformed :
    ∀ (mapping : List (String × MapValue)),
    (∀ kv ∈ mapping, isWellFormedValue kv.2 = true) →
    ∃ entries, mappingEntries mapping = some entries := by
  intro mapping
  induction mapping with
  | nil => exact fun _ => ⟨[], rfl⟩
  | cons kv rest ih =>
      intro hall
      obtain ⟨k0, v0⟩ := kv
      cases v0 with
      | malformed raw =>
          have hw := hall (k0, MapValue.malformed raw) (List.mem_cons_self _ _)
          simp [isWellFormedValue] at hw
      | entry e0 =>
          rcases ih (fun kv hkv => hall kv (List.mem_cons_of_mem _ hkv)) with ⟨es, hes⟩
          exact ⟨(k0, e0) :: es, by simp [mappingEntries, hes]⟩

/-- Counterexample to C6: a single-question assignment whose id is absent
from a successfully parsed mapping receives an empty answer, not the whole
combined content as the claim states. -/
theorem c6_counterexample :
    llm_map_to_questions "all of the submission content" [demoQuestion]
        (some [("other_question",
          MapValue.entry { text := "stray", confidence := "high" })]) =
      [("q1", MapValue.entry { text := "", confidence := "low" })] ∧
    ("" : String) ≠ "all of the submission content" := by
  refine ⟨rfl, by decide⟩

/-- Claim C6 amended: the aligner always yields an entry for every question
of the assignment, at the mapping level and after metadata decoration; when
every parsing attempt fails, each question receives the whole combined
content when the assignment has exactly one question and an empty answer
otherwise; a question id absent from a successfully parsed mapping receives
an empty answer regardless of the question count. -/
theorem c6_aligner_amended (content : String) (questions : List QuestionConfig)
    (parsed : Option (List (String × MapValue))) (text_content : String)
    (images : List PILImage) (visionText : String) (image_data : List String) :
    (∀ q ∈ questions, ∃ v,
      (q.id, v) ∈ llm_map_to_questions content questions parsed) ∧
    (∀ q ∈ questions, ∃ a,
      (q.id, a) ∈ map_content_to_questions text_content images questions
        visionText image_data parsed) ∧
    (parsed = none → ∀ q ∈ questions,
      (q.id, MapValue.entry
        { text := if questions.length = 1 then content else ""
          confidence := "low" }) ∈
        llm_map_to_questions content questions parsed) ∧
    (∀ m, parsed = some m → ∀ q ∈ questions, m.lookup q.id = none →
      (q.id, MapValue.entry { text := "", confidence := "low" }) ∈
        llm_map_to_questions content questions parsed) := by
  refine ⟨?_, ?_, ?_, ?_⟩
  · intro q hq
    cases parsed with
    | some m =>
        cases hl : m.lookup q.id with
        | some v =>
            exact ⟨v, List.mem_map.mpr ⟨q, hq, by simp [llm_map_to_questions, hl]⟩⟩
        | none =>
            exact ⟨MapValue.entry { text := "", confidence := "low" },
              List.mem_map.mpr ⟨q, hq, by simp [llm_map_to_questions, hl]⟩⟩
    | none =>
        exact ⟨MapValue.entry
          { text := if questions.length = 1 then content else ""
            confidence := "low" },
          List.mem_map.mpr ⟨q, hq, by simp [llm_map_to_questions]⟩⟩
  · intro q hq
    have hmem : ∃ v, (q.id, v) ∈ llm_map_to_questions
        (combinedContent text_content images visionText) questions parsed := by
      cases parsed with
      | some m =>
          cases hl : m.lookup q.id with
          | some v =>
              exact ⟨v, List.mem_map.mpr ⟨q, hq, by simp [llm_map_to_questions, hl]⟩⟩
          | none =>
              exact ⟨MapValue.entry { text := "", confidence := "low" },
                List.mem_map.mpr ⟨q, hq, by simp [llm_map_to_questions, hl]⟩⟩
      | none =>
          exact ⟨_, List.mem_map.mpr ⟨q, hq, rfl⟩⟩
    cases hes : mappingEntries (llm_map_to_questions
        (combinedContent text_content images visionText) questions parsed) with
    | some entries =>
        rcases hmem with ⟨v, hv⟩
        rcases mappingEntries_mem _ entries hes q.id v hv with ⟨e, _, he⟩
        refine ⟨(decorateEntry images image_data (q.id, e)).2, ?_⟩
        simp only [map_content_to_questions, hes]
        exact List.mem_map.mpr ⟨(q.id, e), he, rfl⟩
    | none =>
        refine ⟨{ text := "", confidence := none, images := []
                  extracted_from_image := false
                  extraction_notes :=
                    some ("Mapping error: " ++ mappingErrorText) }, ?_⟩
        simp only [map_content_to_questions, hes]
        exact List.mem_map.mpr ⟨q, hq, rfl⟩
  · intro hp q hq
    subst hp
    exact List.mem_map.mpr ⟨q, hq, by simp [llm_map_to_questions]⟩
  · intro m hp q hq hl
    subst hp
    exact List.mem_map.mpr ⟨q, hq, by simp [llm_map_to_questions, hl]⟩

/-- Witness for C6 amended at concrete inputs: a two-question assignment
with total parse failure yields empty entries for both questions, and a
one-question assignment with total parse failure receives the whole
content. -/
theorem c6_witness :
    (("q1", MapValue.entry
      { text := "the whole submission", confidence := "low" }) ∈
      llm_map_to_questions "the whole submission" [demoQuestion] none) ∧
    ∃ a, ("q1", a) ∈ map_content_to_questions "typed text" [] [demoQuestion]
      "" [] none := by
  constructor
  · have h := (c6_aligner_amended "the whole submission" [demoQuestion] none
      "typed text" [] "" []).2.2.1 rfl demoQuestion (by decide)
    simpa using h
  · exact (c6_aligner_amended "typed text" [demoQuestion] none
      "typed text" [] "" []).2.1 demoQuestion (by decide)

/-- Counterexample to C10: one image was obtained, yet a successfully
parsed mapping holding a malformed value for q1 (a bare string instead of
the expected object) makes the metadata loop raise, and the except branch
returns the question with extracted_from_image false, refuting the claim
that at least one image forces every flag true. -/
theorem c10_counterexample :
    ([{ width := 640, height := 480 }] : List PILImage) ≠ [] ∧
    map_content_to_questions "typed answer text"
        [{ width := 640, height := 480 }] [demoQuestion] "image transcript"
        ["base64data"]
        (some [("q1", MapValue.malformed "a bare string value")]) =
      [("q1",
        { text := "", confidence := none, images := []
          extracted_from_image := false
          extraction_notes := some ("Mapping error: " ++ mappingErrorText) })] := by
  refine ⟨by decide, rfl⟩

/-- Claim C10 amended: the extracted_from_image flag is per submission
file, not per question, whenever the metadata decoration loop completes:
if every value of the aligner mapping is a well-formed object then, with at
least one image obtained, every aligned answer carries
extracted_from_image true, including answers whose text came purely from
the typed base text, and with no images every answer carries false; but if
some mapping value is malformed, the loop raises and the except branch
marks every answer extracted_from_image false even when images were
obtained. -/
theorem c10_image_flag_amended (text_content : String) (images : List PILImage)
    (questions : List QuestionConfig) (visionText : String)
    (image_data : List String) (parsed : Option (List (String × MapValue))) :
    ((∀ kv ∈ llm_map_to_questions
        (combinedContent text_content images visionText) questions parsed,
        isWellFormedValue kv.2 = true) →
      (images ≠ [] →
        ∀ p ∈ map_content_to_questions text_content images questions visionText
          image_data parsed, p.2.extracted_from_image = true) ∧
      (images = [] →
        ∀ p ∈ map_content_to_questions text_content images questions visionText
          image_data parsed, p.2.extracted_from_image = false)) ∧
    ((∃ kv ∈ llm_map_to_questions
        (combinedContent text_content images visionText) questions parsed,
        isWellFormedValue kv.2 = false) →
      ∀ p ∈ map_content_to_questions text_content images questions visionText
        image_data parsed, p.2.extracted_from_image = false) := by
  constructor
  · intro hwf
    rcases mappingEntries_some_of_wellformed _ hwf with ⟨entries, hes⟩
    constructor
    · intro hne p hp
      simp only [map_content_to_questions, hes] at hp
      rcases List.mem_map.mp hp with ⟨entry, _, hEq⟩
      rw [← hEq]
      simp [decorateEntry, List.isEmpty_iff, hne]
    · intro hnil p hp
      subst hnil
      simp only [map_content_to_questions, hes] at hp
      rcases List.mem_map.mp hp with ⟨entry, _, hEq⟩
      rw [← hEq]
      simp [decorateEntry]
  · rintro ⟨kv, hkv, hmal⟩ p hp
    cases hes : mappingEntries (llm_map_to_questions
        (combinedContent text_content images visionText) questions parsed) with
    | some entries =>
        rcases mappingEntries_mem _ entries hes kv.1 kv.2 (by simpa using hkv)
          with ⟨e, hv, _⟩
        rw [hv] at hmal
        simp [isWellFormedValue] at hmal
    | none =>
        simp only [map_content_to_questions, hes] at hp
        rcases List.mem_map.mp hp with ⟨q, _, hEq⟩
        rw [← hEq]

/-- Witness for C10 amended: with one extracted image and a well-formed
mapping the purely-typed answer is flagged true, and with the same image
but a malformed mapping value every answer is flagged false. -/
theorem c10_witness :
    (∀ p ∈ map_content_to_questions "typed answer text"
        [{ width := 640, height := 480 }] [demoQuestion] "image transcript"
        ["base64data"]
        (some [("q1",
          MapValue.entry { text := "typed answer text", confidence := "high" })]),
      p.2.extracted_from_image = true) ∧
    (∀ p ∈ map_content_to_questions "typed answer text"
        [{ width := 640, height := 480 }] [demoQuestion] "image transcript"
        ["base64data"]
        (some [("q1", MapValue.malformed "a bare string value")]),
      p.2.extracted_from_image = false) := by
  constructor
  · exact ((c10_image_flag_amended "typed answer text"
      [{ width := 640, height := 480 }] [demoQuestion] "image transcript"
      ["base64data"]
      (some [("q1",
        MapValue.entry { text := "typed answer text", confidence := "high" })])).1
      (by decide)).1 (by decide)
  · exact (c10_image_flag_amended "typed answer text"
      [{ width := 640, height := 480 }] [demoQuestion] "image transcript"
      ["base64data"]
      (some [("q1", MapValue.malformed "a bare string value")])).2
      ⟨("q1", MapValue.malformed "a bare string value"), by decide, by decide⟩

/-- Grading mode.  PromptBuilder defaults invalid mode strings to full
during initialization, so the effective mode is always one of the three. -/
inductive GradingMode
  | basic
  | standard
  | full
deriving Repr, DecidableEq

/-- Membership test grading_mode in ["standard", "full"]. -/
def modeAtLeastStandard : GradingMode → Bool
  | GradingMode.basic => false
  | GradingMode.standard => true
  | GradingMode.full => true

/-- Python truthiness of an optional string: None and the empty string are
falsy. -/
def truthyOptStr : Option String → Bool
  | none => false
  | some s => s != ""

/-- Python truthiness of an optional list: None and the empty list are
falsy. -/
def truthyCriteria : Option (List String) → Bool
  | none => false
  | some l => l != []

/-- Tagged prompt components, one constructor per append site of
PromptBuilder._format_rubric and
PromptBuilder.build_single_question_prompt; the payload of a constructor is
the information the component discloses. -/
inductive PromptPart
  | roleText
  | assignmentLine (name : String)
  | courseLine (c : String)
  | sepLine
  | questionHeader (id : String) (points : ℚ)
  | questionText (t : String)
  | answerKey (k : String)
  | rubricHeader
  | criteriaHeader
  | criterionLine (c : String)
  | scoringHeader
  | fullCreditLine (p : ℚ)
  | mostlyCorrectLine (p : ℚ)
  | attemptedLine (p : ℚ)
  | noSubmissionLine (p : ℚ)
  | instructionsText (i : String)
  | customScoringHeader
  | customScoringLine (k v : String)
  | outputFormat (id : String) (points : ℚ)
  | gradingGuidelines
deriving Repr, DecidableEq

/-- Full-credit line of the scoring guidelines: rubric.correct when set,
otherwise the question points when truthy. -/
def fullCreditParts (correct : Option ℚ) (question_points : Option ℚ) :
    List PromptPart :=
  match correct with
  | some v => [PromptPart.fullCreditLine v]
  | none =>
      match question_points with
      | some p => if p ≠ 0 then [PromptPart.fullCreditLine p] else []
      | none => []

/-- One optional scoring line. -/
def optPartLine (o : Option ℚ) (f : ℚ → PromptPart) : List PromptPart :=
  match o with
  | some v => [f v]
  | none => []

/-- Scoring-guidelines section of _format_rubric, included in every mode. -/
def rubricScoringParts (rubric : RubricConfig) (question_points : Option ℚ) :
    List PromptPart :=
  [PromptPart.scoringHeader] ++
  fullCreditParts rubric.correct question_points ++
  optPartLine rubric.mostly_correct PromptPart.mostlyCorrectLine ++
  optPartLine rubric.attempted PromptPart.attemptedLine ++
  [PromptPart.noSubmissionLine rubric.no_submission]

/-- Embedding of PromptBuilder._format_rubric
(src/backend/src/utils/prompt_builder.py, lines 144 to 186) at the
granularity of appended parts: the rubric criteria and the additional
instructions are included only in standard and full modes; the scoring
guidelines and any custom scoring rules are included in every mode. -/
def formatRubric (mode : GradingMode) (rubric : RubricConfig)
    (question_points : Option ℚ) : List PromptPart :=
  (if modeAtLeastStandard mode && truthyCriteria rubric.criteria then
    PromptPart.criteriaHeader ::
      (rubric.criteria.getD []).map PromptPart.criterionLine
  else []) ++
  rubricScoringParts rubric question_points ++
  (if modeAtLeastStandard mode && truthyOptStr rubric.instructions then
    [PromptPart.instructionsText (rubric.instructions.getD "")]
  else []) ++
  (if rubric.custom_scoring ≠ [] then
    PromptPart.customScoringHeader ::
      rubric.custom_scoring.map fun kv => PromptPart.customScoringLine kv.1 kv.2
  else [])

/-- Rubric resolution question.rubric or self.config.general_rubric. -/
def effectiveRubric (cfg : AssignmentConfig) (question : QuestionConfig) :
    Option RubricConfig :=
  match question.rubric with
  | some r => some r
  | none => cfg.general_rubric

/-- Embedding of the system prompt assembly of
PromptBuilder.build_single_question_prompt
(src/backend/src/utils/prompt_builder.py, lines 386 to 455): the answer key
is appended only in full mode; the rubric section is formatted per mode.
The user prompt of the pair does not depend on the grading mode. -/
def buildSingleQuestionPromptParts (cfg : AssignmentConfig) (mode : GradingMode)
    (question : QuestionConfig) : List PromptPart :=
  [PromptPart.roleText, PromptPart.assignmentLine cfg.assignment_name] ++
  (if truthyOptStr cfg.course_code then
    [PromptPart.courseLine (cfg.course_code.getD "")] else []) ++
  [PromptPart.sepLine, PromptPart.questionHeader question.id question.points,
   PromptPart.sepLine, PromptPart.questionText question.text] ++
  (if (mode == GradingMode.full) && truthyOptStr question.answer_key then
    [PromptPart.answerKey (question.answer_key.getD "")] else []) ++
  (match effectiveRubric cfg question with
   | some r =>
      PromptPart.rubricHeader :: formatRubric mode r (some question.points)
   | none => []) ++
  [PromptPart.outputFormat question.id question.points,
   PromptPart.gradingGuidelines]

lemma mem_fullCreditParts (c qp : Option ℚ) (p : PromptPart)
    (hp : p ∈ fullCreditParts c qp) : ∃ v, p = PromptPart.fullCreditLine v := by
  unfold fullCreditParts at hp
  cases c with
  | some v => exact ⟨v, by simpa using hp⟩
  | none =>
      cases qp with
      | some q =>
          have hp2 : p ∈ (if q ≠ 0 then [PromptPart.fullCreditLine q] else []) := hp
          by_cases hq : q ≠ 0
          · rw [if_pos hq] at hp2
            exact ⟨q, by simpa using hp2⟩
          · rw [if_neg hq] at hp2
            simp at hp2
      | none => simp at hp

lemma mem_optPartLine (o : Option ℚ) (f : ℚ → PromptPart) (p : PromptPart)
    (hp : p ∈ optPartLine o f) : ∃ v, p = f v := by
  unfold optPartLine at hp
  cases o with
  | some v => exact ⟨v, by simpa using hp⟩
  | none => simp at hp

lemma mem_rubricScoringParts (r : RubricConfig) (qp : Option ℚ) (p : PromptPart)
    (hp : p ∈ rubricScoringParts r qp) :
    p = PromptPart.scoringHeader ∨ (∃ v, p = PromptPart.fullCreditLine v) ∨
    (∃ v, p = PromptPart.mostlyCorrectLine v) ∨
    (∃ v, p = PromptPart.attemptedLine v) ∨
    p = PromptPart.noSubmissionLine r.no_submission := by
  unfold rubricScoringParts at hp
  rcases List.mem_append.mp hp with hp | hp
  rcases List.mem_append.mp hp with hp | hp
  rcases List.mem_append.mp hp with hp | hp
  rcases List.mem_append.mp hp with hp | hp
  · exact Or.inl (by simpa using hp)
  · exact Or.inr (Or.inl (mem_fullCreditParts _ _ _ hp))
  · exact Or.inr (Or.inr (Or.inl (mem_optPartLine _ _ _ hp)))
  · exact Or.inr (Or.inr (Or.inr (Or.inl (mem_optPartLine _ _ _ hp))))
  · exact Or.inr (Or.inr (Or.inr (Or.inr (by simpa using hp))))

lemma mem_ite_nil_parts {α : Type} {c : Prop} [Decidable c] {l : List α} {p : α}
    (hp : p ∈ (if c then l else [])) : c ∧ p ∈ l := by
  split at hp
  · rename_i hc
    exact ⟨hc, hp⟩
  · simp at hp

lemma answerKey_notin_formatRubric (mode : GradingMode) (r : RubricConfig)
    (qp : Option ℚ) (k : String) :
    PromptPart.answerKey k ∉ formatRubric mode r qp := by
  intro hp
  unfold formatRubric at hp
  rcases List.mem_append.mp hp with hp | hp
  rcases List.mem_append.mp hp with hp | hp
  rcases List.mem_append.mp hp with hp | hp
  · have h2 := (mem_ite_nil_parts hp).2
    simp [List.mem_map] at h2
  · rcases mem_rubricScoringParts r qp _ hp with h | ⟨v, h⟩ | ⟨v, h⟩ | ⟨v, h⟩ | h <;>
      simp at h
  · have h2 := (mem_ite_nil_parts hp).2
    simp at h2
  · have h2 := (mem_ite_nil_parts hp).2
    simp [List.mem_map] at h2

lemma criteriaHeader_notin_basic_formatRubric (r : RubricConfig) (qp : Option ℚ) :
    PromptPart.criteriaHeader ∉ formatRubric GradingMode.basic r qp := by
  intro hp
  unfold formatRubric at hp
  rcases List.mem_append.mp hp with hp | hp
  rcases List.mem_append.mp hp with hp | hp
  rcases List.mem_append.mp hp with hp | hp
  · have h1 := (mem_ite_nil_parts hp).1
    simp [modeAtLeastStandard] at h1
  · rcases mem_rubricScoringParts r qp _ hp with h | ⟨v, h⟩ | ⟨v, h⟩ | ⟨v, h⟩ | h <;>
      simp at h
  · have h1 := (mem_ite_nil_parts hp).1
    simp [modeAtLeastStandard] at h1
  · have h2 := (mem_ite_nil_parts hp).2
    simp [List.mem_map] at h2

lemma instructionsText_notin_basic_formatRubric (r : RubricConfig)
    (qp : Option ℚ) (i : String) :
    PromptPart.instructionsText i ∉ formatRubric GradingMode.basic r qp := by
  intro hp
  unfold formatRubric at hp
  rcases List.mem_append.mp hp with hp | hp
  rcases List.mem_append.mp hp with hp | hp
  rcases List.mem_append.mp hp with hp | hp
  · have h1 := (mem_ite_nil_parts hp).1
    simp [modeAtLeastStandard] at h1
  · rcases mem_rubricScoringParts r qp _ hp with h | ⟨v, h⟩ | ⟨v, h⟩ | ⟨v, h⟩ | h <;>
      simp at h
  · have h1 := (mem_ite_nil_parts hp).1
    simp [modeAtLeastStandard] at h1
  · have h2 := (mem_ite_nil_parts hp).2
    simp [List.mem_map] at h2

lemma mem_build_parts (cfg : AssignmentConfig) (mode : GradingMode)
    (question : QuestionConfig) (p : PromptPart)
    (hp : p ∈ buildSingleQuestionPromptParts cfg mode question) :
    p = PromptPart.roleText ∨
    p = PromptPart.assignmentLine cfg.assignment_name ∨
    p = PromptPart.courseLine (cfg.course_code.getD "") ∨
    p = PromptPart.sepLine ∨
    p = PromptPart.questionHeader question.id question.points ∨
    p = PromptPart.questionText question.text ∨
    (((mode == GradingMode.full) && truthyOptStr question.answer_key) = true ∧
      p = PromptPart.answerKey (question.answer_key.getD "")) ∨
    p = PromptPart.rubricHeader ∨
    (∃ r, effectiveRubric cfg question = some r ∧
      p ∈ formatRubric mode r (some question.points)) ∨
    p = PromptPart.outputFormat question.id question.points ∨
    p = PromptPart.gradingGuidelines := by
  unfold buildSingleQuestionPromptParts at hp
  rcases List.mem_append.mp hp with hp | hp
  rcases List.mem_append.mp hp with hp | hp
  rcases List.mem_append.mp hp with hp | hp
  rcases List.mem_append.mp hp with hp | hp
  rcases List.mem_append.mp hp with hp | hp
  · rcases List.mem_cons.mp hp with h | h
    · exact Or.inl h
    · exact Or.inr (Or.inl (by simpa using h))
  · rcases mem_ite_nil_parts hp with ⟨_, h⟩
    exact Or.inr (Or.inr (Or.inl (by simpa using h)))
  · simp only [List.mem_cons, List.not_mem_nil, or_false] at hp
    rcases hp with h | h | h | h
    · exact Or.inr (Or.inr (Or.inr (Or.inl h)))
    · exact Or.inr (Or.inr (Or.inr (Or.inr (Or.inl h))))
    · exact Or.inr (Or.inr (Or.inr (Or.inl h)))
    · exact Or.inr (Or.inr (Or.inr (Or.inr (Or.inr (Or.inl h)))))
  · rcases mem_ite_nil_parts hp with ⟨hg, h⟩
    exact Or.inr (Or.inr (Or.inr (Or.inr (Or.inr (Or.inr (Or.inl
      ⟨hg, by simpa using h⟩))))))
  · cases he : effectiveRubric cfg question with
    | some r =>
        rw [he] at hp
        rcases List.mem_cons.mp hp with h | h
        · exact Or.inr (Or.inr (Or.inr (Or.inr (Or.inr (Or.inr (Or.inr
            (Or.inl h)))))))
        · exact Or.inr (Or.inr (Or.inr (Or.inr (Or.inr (Or.inr (Or.inr
            (Or.inr (Or.inl ⟨r, rfl, h⟩))))))))
    | none =>
        rw [he] at hp
        simp at hp
  · simp only [List.mem_cons, List.not_mem_nil, or_false] at hp
    rcases hp with h | h
    · exact Or.inr (Or.inr (Or.inr (Or.inr (Or.inr (Or.inr (Or.inr (Or.inr
        (Or.inr (Or.inl h)))))))))
    · exact Or.inr (Or.inr (Or.inr (Or.inr (Or.inr (Or.inr (Or.inr (Or.inr
        (Or.inr (Or.inr h)))))))))

lemma formatRubric_basic_sublist_standard (r : RubricConfig) (qp : Option ℚ) :
    (formatRubric GradingMode.basic r qp).Sublist
      (formatRubric GradingMode.standard r qp) := by
  unfold formatRubric
  exact List.Sublist.append
    (List.Sublist.append
      (List.Sublist.append (List.nil_sublist _) (List.Sublist.refl _))
      (List.nil_sublist _))
    (List.Sublist.refl _)

lemma formatRubric_standard_eq_full (r : RubricConfig) (qp : Option ℚ) :
    formatRubric GradingMode.standard r qp = formatRubric GradingMode.full r qp := rfl

lemma build_basic_sublist_standard (cfg : AssignmentConfig)
    (question : QuestionConfig) :
    (buildSingleQuestionPromptParts cfg GradingMode.basic question).Sublist
      (buildSingleQuestionPromptParts cfg GradingMode.standard question) := by
  unfold buildSingleQuestionPromptParts
  refine List.Sublist.append (List.Sublist.append ?_ ?_) (List.Sublist.refl _)
  · exact List.Sublist.append (List.Sublist.refl _) (List.nil_sublist _)
  · cases he : effectiveRubric cfg question with
    | some r =>
        exact List.Sublist.cons₂ _ (formatRubric_basic_sublist_standard r _)
    | none => exact List.Sublist.refl _

lemma build_standard_sublist_full (cfg : AssignmentConfig)
    (question : QuestionConfig) :
    (buildSingleQuestionPromptParts cfg GradingMode.standard question).Sublist
      (buildSingleQuestionPromptParts cfg GradingMode.full question) := by
  unfold buildSingleQuestionPromptParts
  refine List.Sublist.append (List.Sublist.append ?_ ?_) (List.Sublist.refl _)
  · exact List.Sublist.append (List.Sublist.refl _) (List.nil_sublist _)
  · cases he : effectiveRubric cfg question with
    | some r =>
        exact List.Sublist.cons₂ _
          (formatRubric_standard_eq_full r _ ▸ List.Sublist.refl _)
    | none => exact List.Sublist.refl _

/-- Claim C8: prompt disclosure is nested across grading modes.  Everything
included in the single-question grading prompt under basic is included
under standard, and everything under standard is included under full; the
step to standard adds the rubric criteria and the additional instructions
whenever the effective rubric carries them, and the step to full adds the
reference answer key whenever the question carries one, each absent from
the smaller mode. -/
theorem c8_grading_mode_nesting (cfg : AssignmentConfig)
    (question : QuestionConfig) :
    (∀ p ∈ buildSingleQuestionPromptParts cfg GradingMode.basic question,
      p ∈ buildSingleQuestionPromptParts cfg GradingMode.standard question) ∧
    (∀ p ∈ buildSingleQuestionPromptParts cfg GradingMode.standard question,
      p ∈ buildSingleQuestionPromptParts cfg GradingMode.full question) ∧
    (∀ r, effectiveRubric cfg question = some r →
      truthyCriteria r.criteria = true →
      PromptPart.criteriaHeader ∈
        buildSingleQuestionPromptParts cfg GradingMode.standard question ∧
      PromptPart.criteriaHeader ∉
        buildSingleQuestionPromptParts cfg GradingMode.basic question) ∧
    (∀ r i, effectiveRubric cfg question = some r →
      r.instructions = some i → i ≠ "" →
      PromptPart.instructionsText i ∈
        buildSingleQuestionPromptParts cfg GradingMode.standard question ∧
      PromptPart.instructionsText i ∉
        buildSingleQuestionPromptParts cfg GradingMode.basic question) ∧
    (∀ k, question.answer_key = some k → k ≠ "" →
      PromptPart.answerKey k ∈
        buildSingleQuestionPromptParts cfg GradingMode.full question ∧
      PromptPart.answerKey k ∉
        buildSingleQuestionPromptParts cfg GradingMode.standard question) := by
  refine ⟨?_, ?_, ?_, ?_, ?_⟩
  · intro p hp
    exact (build_basic_sublist_standard cfg question).subset hp
  · intro p hp
    exact (build_standard_sublist_full cfg question).subset hp
  · intro r hEff hcrit
    constructor
    · have hcond : (modeAtLeastStandard GradingMode.standard &&
          truthyCriteria r.criteria) = true := by
        simp [modeAtLeastStandard, hcrit]
      have hfr : PromptPart.criteriaHeader ∈
          formatRubric GradingMode.standard r (some question.points) := by
        unfold formatRubric
        refine List.mem_append.mpr (Or.inl (List.mem_append.mpr (Or.inl
          (List.mem_append.mpr (Or.inl ?_)))))
        rw [if_pos hcond]
        exact List.mem_cons_self _ _
      unfold buildSingleQuestionPromptParts
      refine List.mem_append.mpr (Or.inl (List.mem_append.mpr (Or.inr ?_)))
      rw [hEff]
      exact List.mem_cons_of_mem _ hfr
    · intro hmem
      rcases mem_build_parts cfg GradingMode.basic question _ hmem with
        h | h | h | h | h | h | ⟨hg, h⟩ | h | ⟨r2, he2, h⟩ | h | h <;>
        try simp at h
      have h9 : some r = some r2 := hEff.symm.trans he2
      cases h9
      exact criteriaHeader_notin_basic_formatRubric r (some question.points) h
  · intro r i hEff hi hine
    constructor
    · have hcond : (modeAtLeastStandard GradingMode.standard &&
          truthyOptStr r.instructions) = true := by
        simp [modeAtLeastStandard, truthyOptStr, hi, hine]
      have hfr : PromptPart.instructionsText i ∈
          formatRubric GradingMode.standard r (some question.points) := by
        unfold formatRubric
        refine List.mem_append.mpr (Or.inl (List.mem_append.mpr (Or.inr ?_)))
        rw [if_pos hcond]
        simp [hi]
      unfold buildSingleQuestionPromptParts
      refine List.mem_append.mpr (Or.inl (List.mem_append.mpr (Or.inr ?_)))
      rw [hEff]
      exact List.mem_cons_of_mem _ hfr
    · intro hmem
      rcases mem_build_parts cfg GradingMode.basic question _ hmem with
        h | h | h | h | h | h | ⟨hg, h⟩ | h | ⟨r2, he2, h⟩ | h | h <;>
        try simp at h
      have h9 : some r = some r2 := hEff.symm.trans he2
      cases h9
      exact instructionsText_notin_basic_formatRubric r (some question.points) i h
  · intro k hk hkne
    constructor
    · have hcond : ((GradingMode.full == GradingMode.full) &&
          truthyOptStr question.answer_key) = true := by
        simp [truthyOptStr, hk, hkne]
      unfold buildSingleQuestionPromptParts
      refine List.mem_append.mpr (Or.inl (List.mem_append.mpr (Or.inl
        (List.mem_append.mpr (Or.inr ?_)))))
      rw [if_pos hcond]
      simp [hk]
    · intro hmem
      rcases mem_build_parts cfg GradingMode.standard question _ hmem with
        h | h | h | h | h | h | ⟨hg, h⟩ | h | ⟨r2, he2, h⟩ | h | h <;>
        try simp at h
      · simp at hg
      · exact answerKey_notin_formatRubric GradingMode.standard r2
          (some question.points) k h

/-- Demo rubric carrying criteria and additional instructions. -/
def demoRubric : RubricConfig :=
  { criteria := some ["correct setup", "valid proof"], correct := some 10
    instructions := some "award partial credit generously" }

/-- Demo question carrying an answer key and the demo rubric. -/
def demoKeyQuestion : QuestionConfig :=
  { id := "q2", text := "Prove the claim", points := 10
    answer_key := some "the intended proof", rubric := some demoRubric }

/-- Demo assignment configuration for the prompt-nesting witness. -/
def demoKeyConfig : AssignmentConfig :=
  { assignment_id := "hw2", assignment_name := "Homework 2"
    questions := [demoKeyQuestion], total_points := some 10 }

/-- Witness for C8 at the demo assignment: a part of the basic prompt is in
the standard prompt, the criteria header and the instructions enter at
standard and are absent from basic, and the answer key enters at full and
is absent from standard. -/
theorem c8_witness :
    (PromptPart.roleText ∈
      buildSingleQuestionPromptParts demoKeyConfig GradingMode.standard
        demoKeyQuestion) ∧
    (PromptPart.criteriaHeader ∈
      buildSingleQuestionPromptParts demoKeyConfig GradingMode.standard
        demoKeyQuestion ∧
     PromptPart.criteriaHeader ∉
      buildSingleQuestionPromptParts demoKeyConfig GradingMode.basic
        demoKeyQuestion) ∧
    (PromptPart.instructionsText "award partial credit generously" ∈
      buildSingleQuestionPromptParts demoKeyConfig GradingMode.standard
        demoKeyQuestion) ∧
    (PromptPart.answerKey "the intended proof" ∈
      buildSingleQuestionPromptParts demoKeyConfig GradingMode.full
        demoKeyQuestion ∧
     PromptPart.answerKey "the intended proof" ∉
      buildSingleQuestionPromptParts demoKeyConfig GradingMode.basic
        demoKeyQuestion ∧
     PromptPart.answerKey "the intended proof" ∉
      buildSingleQuestionPromptParts demoKeyConfig GradingMode.standard
        demoKeyQuestion) := by
  have h := c8_grading_mode_nesting demoKeyConfig demoKeyQuestion
  have hcrit := h.2.2.1 demoRubric (by decide) (by decide)
  have hinstr := h.2.2.2.1 demoRubric "award partial credit generously"
    (by decide) (by decide) (by decide)
  have hkey := h.2.2.2.2 "the intended proof" (by decide) (by decide)
  refine ⟨h.1 PromptPart.roleText (by decide), hcrit, hinstr.1,
    hkey.1, fun hmem => hkey.2 (h.1 _ hmem), hkey.2⟩

end GradeLens
